import Mathlib

/-!
Verification of the movieapp in-memory service registry
(pkg/discovery/memorypackage/memory.go) and the in-memory rating
repository (rating/internal/repository/memory/memory.go).

Embedding conventions.
Go maps are embedded as association lists over String keys:
`alookup` is map indexing, `ainsert` is map assignment `m[k] = v`
(Go maps have no observable key order, so the update may place the
entry anywhere; we put it in front and drop old entries for the key),
`aerase` is `delete(m, k)`.  Time is a natural-number clock passed
explicitly to every operation whose Go body reads `time.Now()`; the Go
staleness test `i.lastActive.Before(time.Now().Add(-5 * time.Second))`
is the integer comparison `lastActive < now - 5`, written here as
`lastActive + 5 < now` to avoid truncated subtraction.  Each Go method
returns its receiver unchanged or updated together with its `error`
result, so every operation is embedded as a function producing a
`Registry × Option RegErr` pair (or `Except` for ServiceAddresses,
which returns a value or an error).
-/

/-- Map indexing `m[k]` for a Go map embedded as an association list. -/
def alookup {β : Type} : List (String × β) → String → Option β
  | [], _ => none
  | (k, v) :: t, k₀ => if k = k₀ then some v else alookup t k₀

/-- Map deletion `delete(m, k)`: every entry for the key is dropped. -/
def aerase {β : Type} : List (String × β) → String → List (String × β)
  | [], _ => []
  | (k, v) :: t, k₀ => if k = k₀ then aerase t k₀ else (k, v) :: aerase t k₀

/-- Map assignment `m[k] = v`: the key now maps to `v` and to nothing else. -/
def ainsert {β : Type} (l : List (String × β)) (k : String) (v : β) :
    List (String × β) :=
  (k, v) :: aerase l k

/-- serviceInstance (memory.go lines 20-23): connection address plus the
time of the last registration or heartbeat. -/
structure ServiceInstance where
  hostPort : String
  lastActive : Nat
  deriving DecidableEq

/-- The inner map `map[instanceID]*serviceInstance`. -/
abbrev InnerMap := List (String × ServiceInstance)

/-- Registry state (memory.go lines 16-19): the field
`serviceAddrs map[serviceName]map[instanceID]*serviceInstance`. -/
abbrev Registry := List (String × InnerMap)

/-- The errors the registry operations can produce: `discovery.ErrNotFound`
and the two `errors.New` results of ReportHealthyState.  The latter two are
the spec's single NotRegistered kind, distinguished only in their detail
("service is not registered yet" vs "service instance is not registered
yet"). -/
inductive RegErr where
  | notFound
  | serviceNotRegistered
  | instanceNotRegistered
  deriving DecidableEq

/-- True exactly for the two NotRegistered-kind errors. -/
def isNotRegistered : Option RegErr → Bool
  | some RegErr.serviceNotRegistered => true
  | some RegErr.instanceNotRegistered => true
  | _ => false

/-- Indexing `r.serviceAddrs[name]`: an absent outer key reads as the
empty inner map, exactly as a nil Go map does. -/
def innerOf (r : Registry) (name : String) : InnerMap :=
  (alookup r name).getD []

/-- The record stored for (name, id): indexing `r.serviceAddrs[name][id]`. -/
def lookupRecord (r : Registry) (name id : String) : Option ServiceInstance :=
  alookup (innerOf r name) id

/-- Register (memory.go lines 32-41): create the inner map when the service
name is new (so the update below starts from the empty inner map), then
store the record with `lastActive` set to the current time; always returns
nil. -/
def Registry.register (r : Registry) (id name hostPort : String) (now : Nat) :
    Registry × Option RegErr :=
  (ainsert r name (ainsert (innerOf r name) id ⟨hostPort, now⟩), none)

/-- Deregister (memory.go lines 45-53): when the service name is unknown,
return nil at once; otherwise delete the instance key from the inner map;
always returns nil. -/
def Registry.deregister (r : Registry) (id name : String) :
    Registry × Option RegErr :=
  match alookup r name with
  | none => (r, none)
  | some m => (ainsert r name (aerase m id), none)

/-- ReportHealthyState (memory.go lines 57-68): error when the service name
is unknown, error when the instance id is unknown under it, otherwise set
the record's `lastActive` to the current time. -/
def Registry.reportHealthyState (r : Registry) (id name : String) (now : Nat) :
    Registry × Option RegErr :=
  match alookup r name with
  | none => (r, some RegErr.serviceNotRegistered)
  | some m =>
    match alookup m id with
    | none => (r, some RegErr.instanceNotRegistered)
    | some inst =>
      (ainsert r name (ainsert m id ⟨inst.hostPort, now⟩), none)

/-- ServiceAddresses (memory.go lines 72-86): `ErrNotFound` when
`len(r.serviceAddrs[name]) == 0` (absent and empty inner map read alike),
otherwise the addresses of the instances whose `lastActive` is not older
than the 5-unit freshness window; the state is only read, never written. -/
def Registry.serviceAddresses (r : Registry) (name : String) (now : Nat) :
    Registry × Except RegErr (List String) :=
  (r, if (innerOf r name).length = 0 then Except.error RegErr.notFound
      else Except.ok ((innerOf r name).filterMap fun p =>
        if p.2.lastActive + 5 < now then none else some p.2.hostPort))

/-! ### The rating repository -/

/-- model.Rating: the repository code never inspects a rating, it only
stores and appends them, so the payload is embedded as a bare value. -/
abbrev Rating := Nat

/-- The inner map `map[model.RecordID][]model.Rating`. -/
abbrev RatingsInner := List (String × List Rating)

/-- The rating Repository state: `map[model.RecordType]map[model.RecordID][]model.Rating`. -/
abbrev RatingsMap := List (String × RatingsInner)

/-- The ratings stored under (recordType, recordID), reading absent keys as
nil just as Go nested map indexing does. -/
def getRatings (d : RatingsMap) (recordType recordID : String) :
    Option (List Rating) :=
  alookup ((alookup d recordType).getD []) recordID

/-- Put (rating memory.go lines 36-44): when `r.data[recordType][recordID]`
has no entry, the whole per-recordType map is replaced by a fresh empty
one; then the rating is appended under (recordType, recordID); always
returns nil. -/
def Repository.put (d : RatingsMap) (recordID recordType : String)
    (rating : Rating) : RatingsMap :=
  let d₁ := match alookup ((alookup d recordType).getD []) recordID with
    | none => ainsert d recordType []
    | some _ => d
  let inner := (alookup d₁ recordType).getD []
  let cur := (alookup inner recordID).getD []
  ainsert d₁ recordType (ainsert inner recordID (cur ++ [rating]))

/-! ### Association-list lemmas -/

theorem alookup_aerase {β : Type} (l : List (String × β)) (k k₀ : String) :
    alookup (aerase l k) k₀ = if k = k₀ then none else alookup l k₀ := by
  induction l with
  | nil => simp [aerase, alookup]
  | cons p t ih =>
    obtain ⟨a, b⟩ := p
    by_cases hak : a = k
    · subst hak
      by_cases hk : a = k₀
      · subst hk
        simp [aerase, alookup, ih]
      · simp [aerase, alookup, hk, ih]
    · by_cases hk : a = k₀
      · subst hk
        simp [aerase, alookup, hak, Ne.symm hak]
      · simp [aerase, alookup, hak, hk, ih]

theorem alookup_ainsert {β : Type} (l : List (String × β)) (k k₀ : String)
    (v : β) :
    alookup (ainsert l k v) k₀ = if k = k₀ then some v else alookup l k₀ := by
  by_cases hk : k = k₀
  · subst hk
    simp [ainsert, alookup]
  · simp [ainsert, alookup, hk, alookup_aerase]

theorem aerase_of_alookup_none {β : Type} (l : List (String × β)) (k : String)
    (h : alookup l k = none) : aerase l k = l := by
  induction l with
  | nil => rfl
  | cons p t ih =>
    obtain ⟨a, b⟩ := p
    by_cases hak : a = k
    · subst hak
      simp [alookup] at h
    · simp [alookup, hak] at h
      simp [aerase, hak, ih h]

theorem aerase_aerase {β : Type} (l : List (String × β)) (k : String) :
    aerase (aerase l k) k = aerase l k := by
  induction l with
  | nil => rfl
  | cons p t ih =>
    obtain ⟨a, b⟩ := p
    by_cases hak : a = k
    · subst hak
      simp [aerase, ih]
    · simp [aerase, hak, ih]

theorem aerase_ainsert_self {β : Type} (l : List (String × β)) (k : String)
    (v : β) : aerase (ainsert l k v) k = aerase l k := by
  simp [ainsert, aerase, aerase_aerase]

/-! ### Registry-level helper lemmas -/

theorem innerOf_ainsert (r : Registry) (name n : String) (m : InnerMap) :
    innerOf (ainsert r name m) n = if name = n then m else innerOf r n := by
  simp [innerOf, alookup_ainsert]
  split <;> rfl

theorem lookupRecord_ainsert_inner (r : Registry) (name n id i : String)
    (v : ServiceInstance) (m : InnerMap) :
    lookupRecord (ainsert r name (ainsert m id v)) n i =
      if name = n then (if id = i then some v else alookup m i)
      else lookupRecord r n i := by
  simp only [lookupRecord, innerOf_ainsert]
  split
  · exact alookup_ainsert m id i v
  · rfl

theorem lookupRecord_register_self (r : Registry) (id name hostPort : String)
    (now : Nat) :
    lookupRecord (Registry.register r id name hostPort now).1 name id =
      some ⟨hostPort, now⟩ := by
  simp [Registry.register, lookupRecord_ainsert_inner]

theorem serviceAddresses_register_mem (r : Registry)
    (id name hostPort : String) (now : Nat) :
    ∃ l, (Registry.serviceAddresses
        (Registry.register r id name hostPort now).1 name now).2 =
          Except.ok l ∧ hostPort ∈ l := by
  have hlt : ¬ (now + 5 < now) := by omega
  refine ⟨hostPort :: ((aerase (innerOf r name) id).filterMap fun p =>
      if p.2.lastActive + 5 < now then none else some p.2.hostPort),
    ?_, List.mem_cons_self _ _⟩
  simp only [Registry.register, Registry.serviceAddresses, innerOf_ainsert,
    if_pos rfl]
  simp [ainsert, List.filterMap_cons, hlt]

/-! ### Claims -/

/-- Claim C1, counterexample. A registry containing one instance of
"movies", registered at time 0 and resolved at time 100 (all instances
stale), makes ServiceAddresses return a successful empty result, not the
NotFound error the claim demands in the all-stale case. -/
theorem claim_C1_counterexample :
    (Registry.serviceAddresses [("movies", [("i1", ⟨"10.0.0.1:8080", 0⟩)])]
        "movies" 100).2 = Except.ok [] ∧
    (Except.ok [] : Except RegErr (List String)) ≠
      Except.error RegErr.notFound := by
  constructor
  · rfl
  · simp

/-- Claim C1, amended: ServiceAddresses fails with NotFound exactly when
the service has no registered instances at all (service name unknown, or
known with an empty inner map); when at least one instance is registered
the call succeeds even if every instance is stale, in which case it
returns a successful empty result. -/
theorem claim_C1_amended (r : Registry) (name : String) (now : Nat) :
    ((Registry.serviceAddresses r name now).2 = Except.error RegErr.notFound ↔
      alookup r name = none ∨ alookup r name = some []) ∧
    (∀ inner, alookup r name = some inner → inner ≠ [] →
      (∀ p ∈ inner, p.2.lastActive + 5 < now) →
      (Registry.serviceAddresses r name now).2 = Except.ok []) := by
  constructor
  · rw [Registry.serviceAddresses]
    cases h : alookup r name with
    | none => simp [innerOf, h]
    | some m => cases m with
      | nil => simp [innerOf, h]
      | cons p t => simp [innerOf, h]
  · intro inner h hne hall
    rw [Registry.serviceAddresses]
    simp only [innerOf, h, Option.getD_some]
    rw [if_neg (by simpa using hne)]
    simp only [Except.ok.injEq, List.filterMap_eq_nil_iff]
    intro p hp
    simp [hall p hp]

/-- Claim C1, witness for the amended claim: one stale instance resolved
well past the window yields the successful empty result. -/
theorem claim_C1_witness :
    (Registry.serviceAddresses [("movies", [("i1", ⟨"10.0.0.1:8080", 0⟩)])]
        "movies" 100).2 = Except.ok [] :=
  (claim_C1_amended [("movies", [("i1", ⟨"10.0.0.1:8080", 0⟩)])] "movies"
      100).2 [("i1", ⟨"10.0.0.1:8080", 0⟩)] rfl (by simp) (by decide)

/-- Claim C2, counterexample. Register at T = 0 and resolve at
now = T + window = 5: the claim says a resolve at time greater than or
equal to T + window excludes the instance, but the code's staleness test
is strict (older than), so the instance is still included at the exact
window edge. -/
theorem claim_C2_counterexample :
    (Registry.serviceAddresses
        (Registry.register [] "i1" "movies" "10.0.0.1:8080" 0).1
        "movies" 5).2 = Except.ok ["10.0.0.1:8080"] := by
  rfl

/-- Claim C2, amended: after registering into the empty registry at time T
with no further heartbeat, resolve at time now returns the singleton
address when now is at most T + window and the empty successful result
when now exceeds T + window: a record is excluded iff now minus
lastHeartbeat strictly exceeds the 5-unit window, so the exact edge
now = T + window is still included. -/
theorem claim_C2_amended (id name hostPort : String) (T now : Nat) :
    (Registry.serviceAddresses (Registry.register [] id name hostPort T).1
        name now).2 =
      Except.ok (if T + 5 < now then [] else [hostPort]) := by
  simp only [Registry.register, Registry.serviceAddresses, innerOf_ainsert,
    if_pos rfl]
  simp only [innerOf, alookup, ainsert, aerase, Option.getD_none]
  by_cases hT : T + 5 < now
  · simp [List.filterMap_cons, hT]
  · simp [List.filterMap_cons, hT]

/-- Claim C3: ReportHealthyState fails exactly when no record exists for
the (name, id) pair (unknown service name, or known name but unknown
instance id), and when the record exists, even a stale one, the call
succeeds and rewrites the record to the same address with lastActive set
to the current time. -/
theorem claim_C3 (r : Registry) (id name : String) (now : Nat) :
    ((Registry.reportHealthyState r id name now).2 ≠ none ↔
      lookupRecord r name id = none) ∧
    lookupRecord (Registry.reportHealthyState r id name now).1 name id =
      Option.map (fun inst => ⟨inst.hostPort, now⟩) (lookupRecord r name id) := by
  rw [Registry.reportHealthyState]
  cases h : alookup r name with
  | none => simp [lookupRecord, innerOf, h, alookup]
  | some m =>
    cases hid : alookup m id with
    | none => simp [lookupRecord, innerOf, h, hid]
    | some inst =>
      simp [lookupRecord, innerOf, alookup_ainsert, h, hid]

/-- Claim C4: Register always succeeds, creates or overwrites the record
for (name, id) with the given address and lastHeartbeat equal to the
current time, and an immediate resolve of the same service name at the
same time succeeds and includes that address. -/
theorem claim_C4 (r : Registry) (id name hostPort : String) (now : Nat) :
    (Registry.register r id name hostPort now).2 = none ∧
    lookupRecord (Registry.register r id name hostPort now).1 name id =
      some ⟨hostPort, now⟩ ∧
    ∃ l, (Registry.serviceAddresses
        (Registry.register r id name hostPort now).1 name now).2 =
          Except.ok l ∧ hostPort ∈ l :=
  ⟨rfl, lookupRecord_register_self r id name hostPort now,
    serviceAddresses_register_mem r id name hostPort now⟩

/-- Resolving a registry holding exactly one record: the singleton address
while the record is within the window, the empty successful result once it
is strictly older. -/
theorem serviceAddresses_singleton (name id hostPort : String) (T now : Nat) :
    (Registry.serviceAddresses [(name, [(id, ⟨hostPort, T⟩)])] name now).2 =
      Except.ok (if T + 5 < now then [] else [hostPort]) := by
  simp only [Registry.serviceAddresses, innerOf, alookup]
  by_cases hT : T + 5 < now
  · simp [List.filterMap_cons, hT]
  · simp [List.filterMap_cons, hT]

/-- Registering the same (name, id) twice starting from the empty registry
leaves a single-record registry holding the second address. -/
theorem register_register_state (id name a₁ a₂ : String) (t₁ t₂ : Nat) :
    (Registry.register (Registry.register [] id name a₁ t₁).1
        id name a₂ t₂).1 = [(name, [(id, ⟨a₂, t₂⟩)])] := by
  simp [Registry.register, innerOf, alookup, ainsert, aerase]

/-- Claim C5: after registering (name, id) with address a₁ and again with
address a₂ ≠ a₁, the stored record holds a₂ (last write wins), and any
subsequent resolve yields at most the singleton a₂, never a₁. -/
theorem claim_C5 (id name a₁ a₂ : String) (t₁ t₂ now : Nat) (h : a₁ ≠ a₂) :
    lookupRecord (Registry.register (Registry.register [] id name a₁ t₁).1
        id name a₂ t₂).1 name id = some ⟨a₂, t₂⟩ ∧
    (Registry.serviceAddresses (Registry.register
        (Registry.register [] id name a₁ t₁).1 id name a₂ t₂).1 name now).2 =
      Except.ok (if t₂ + 5 < now then [] else [a₂]) ∧
    a₁ ∉ (if t₂ + 5 < now then ([] : List String) else [a₂]) := by
  refine ⟨lookupRecord_register_self _ id name a₂ t₂, ?_, ?_⟩
  · rw [register_register_state]
    exact serviceAddresses_singleton name id a₂ t₂ now
  · by_cases hT : t₂ + 5 < now
    · simp [hT]
    · simp [hT, h]

/-- Claim C5, witness: two registrations of "i1" under "movies" with
distinct addresses, then a resolve within the window. -/
theorem claim_C5_witness :
    lookupRecord (Registry.register
        (Registry.register [] "i1" "movies" "10.0.0.1:8080" 0).1
        "i1" "movies" "10.0.0.2:8080" 1).1 "movies" "i1" =
      some ⟨"10.0.0.2:8080", 1⟩ ∧
    (Registry.serviceAddresses (Registry.register
        (Registry.register [] "i1" "movies" "10.0.0.1:8080" 0).1
        "i1" "movies" "10.0.0.2:8080" 1).1 "movies" 2).2 =
      Except.ok (if 1 + 5 < 2 then [] else ["10.0.0.2:8080"]) ∧
    "10.0.0.1:8080" ∉ (if 1 + 5 < 2 then ([] : List String)
      else ["10.0.0.2:8080"]) :=
  claim_C5 "i1" "movies" "10.0.0.1:8080" "10.0.0.2:8080" 0 1 2 (by decide)

/-- Deregister acts on the stored records as the pointwise removal of the
(name, id) key: that record reads as absent afterwards and every other
(service, instance) pair reads exactly as before. -/
theorem lookupRecord_deregister (r : Registry) (id name n i : String) :
    lookupRecord (Registry.deregister r id name).1 n i =
      if n = name ∧ i = id then none else lookupRecord r n i := by
  cases h : alookup r name with
  | none =>
    have hstate : (Registry.deregister r id name).1 = r := by
      simp [Registry.deregister, h]
    rw [hstate]
    by_cases hni : n = name ∧ i = id
    · obtain ⟨hn, hi⟩ := hni
      subst hn; subst hi
      simp [lookupRecord, innerOf, h, alookup]
    · simp [hni]
  | some m =>
    have hstate : (Registry.deregister r id name).1 =
        ainsert r name (aerase m id) := by
      simp [Registry.deregister, h]
    rw [hstate]
    by_cases hn : n = name
    · subst hn
      by_cases hi : i = id
      · subst hi
        simp [lookupRecord, innerOf_ainsert, alookup_aerase]
      · have hi' : ¬ (id = i) := fun hh => hi hh.symm
        simp [lookupRecord, innerOf, h, alookup_ainsert, alookup_aerase,
          hi, hi']
    · have hn' : ¬ (name = n) := fun hh => hn hh.symm
      simp [lookupRecord, innerOf_ainsert, hn, hn']

/-- Deregistering twice is the same operation as deregistering once, state
and result alike. -/
theorem deregister_idem (r : Registry) (id name : String) :
    Registry.deregister (Registry.deregister r id name).1 id name =
      Registry.deregister r id name := by
  cases h : alookup r name with
  | none =>
    have hstate : (Registry.deregister r id name).1 = r := by
      simp [Registry.deregister, h]
    rw [hstate]
  | some m =>
    have hstate : (Registry.deregister r id name).1 =
        ainsert r name (aerase m id) := by
      simp [Registry.deregister, h]
    rw [hstate]
    have h₂ : alookup (ainsert r name (aerase m id)) name =
        some (aerase m id) := by
      simp [alookup_ainsert]
    simp only [Registry.deregister, h, h₂]
    rw [aerase_aerase]
    simp [ainsert, aerase, aerase_aerase]

/-- Claim C6: Deregister succeeds for every input (unknown names and ids
included), removes exactly the (name, id) record when present while every
other record reads as before, is a no-op when the record is absent, and is
idempotent. -/
theorem claim_C6 (r : Registry) (id name n i : String) :
    (Registry.deregister r id name).2 = none ∧
    lookupRecord (Registry.deregister r id name).1 n i =
      (if n = name ∧ i = id then none else lookupRecord r n i) ∧
    Registry.deregister (Registry.deregister r id name).1 id name =
      Registry.deregister r id name := by
  refine ⟨?_, lookupRecord_deregister r id name n i, deregister_idem r id name⟩
  rw [Registry.deregister]
  cases h : alookup r name <;> rfl

/-- Register never removes a record: any (n, i) pair that reads as present
before a registration still reads as present afterwards. -/
theorem lookupRecord_register_preserved (r : Registry)
    (id name hostPort n i : String) (now : Nat)
    (h : (lookupRecord r n i).isSome = true) :
    (lookupRecord (Registry.register r id name hostPort now).1 n i).isSome =
      true := by
  rw [Registry.register]
  rw [lookupRecord_ainsert_inner]
  by_cases hn : name = n
  · rw [if_pos hn]
    by_cases hi : id = i
    · rw [if_pos hi]
      rfl
    · rw [if_neg hi]
      subst hn
      exact h
  · rw [if_neg hn]
    exact h

/-- ReportHealthyState never removes a record: any (n, i) pair that reads
as present before a heartbeat still reads as present afterwards. -/
theorem lookupRecord_heartbeat_preserved (r : Registry) (id name n i : String)
    (now : Nat) (h : (lookupRecord r n i).isSome = true) :
    (lookupRecord (Registry.reportHealthyState r id name now).1 n i).isSome =
      true := by
  cases hm : alookup r name with
  | none =>
    have hstate : (Registry.reportHealthyState r id name now).1 = r := by
      simp [Registry.reportHealthyState, hm]
    rw [hstate]
    exact h
  | some m =>
    cases hid : alookup m id with
    | none =>
      have hstate : (Registry.reportHealthyState r id name now).1 = r := by
        simp [Registry.reportHealthyState, hm, hid]
      rw [hstate]
      exact h
    | some inst =>
      have hstate : (Registry.reportHealthyState r id name now).1 =
          ainsert r name (ainsert m id ⟨inst.hostPort, now⟩) := by
        simp [Registry.reportHealthyState, hm, hid]
      rw [hstate, lookupRecord_ainsert_inner]
      by_cases hn : name = n
      · rw [if_pos hn]
        by_cases hi : id = i
        · rw [if_pos hi]
          rfl
        · rw [if_neg hi]
          subst hn
          simpa [lookupRecord, innerOf, hm] using h
      · rw [if_neg hn]
        exact h

/-- Claim C7: ServiceAddresses leaves the registry state exactly as it
was (stale records are filtered from the result, never deleted), and
neither Register nor ReportHealthyState ever removes a record, so
Deregister is the only operation that does. -/
theorem claim_C7 (r : Registry) (id name hostPort n i : String) (now : Nat)
    (h : (lookupRecord r n i).isSome = true) :
    (Registry.serviceAddresses r name now).1 = r ∧
    (lookupRecord (Registry.register r id name hostPort now).1 n i).isSome =
      true ∧
    (lookupRecord (Registry.reportHealthyState r id name now).1 n i).isSome =
      true :=
  ⟨rfl, lookupRecord_register_preserved r id name hostPort n i now h,
    lookupRecord_heartbeat_preserved r id name n i now h⟩

/-- Claim C7, witness: a registry holding one fresh record of "movies",
queried and mutated under a different instance id. -/
theorem claim_C7_witness :
    (Registry.serviceAddresses [("movies", [("i1", ⟨"10.0.0.1:8080", 0⟩)])]
        "movies" 3).1 = [("movies", [("i1", ⟨"10.0.0.1:8080", 0⟩)])] ∧
    (lookupRecord (Registry.register [("movies", [("i1", ⟨"10.0.0.1:8080", 0⟩)])]
        "i2" "movies" "10.0.0.2:8080" 3).1 "movies" "i1").isSome = true ∧
    (lookupRecord (Registry.reportHealthyState
        [("movies", [("i1", ⟨"10.0.0.1:8080", 0⟩)])] "i2" "movies" 3).1
        "movies" "i1").isSome = true :=
  claim_C7 [("movies", [("i1", ⟨"10.0.0.1:8080", 0⟩)])] "i2" "movies"
    "10.0.0.2:8080" "movies" "i1" 3 (by decide)

/-- Claim C8: an absent per-service map and a present-but-empty one are
indistinguishable to the queries: ServiceAddresses returns NotFound on
both, and ReportHealthyState returns a NotRegistered-kind error on both
(the error detail differs, the kind does not) while leaving the state
untouched. -/
theorem claim_C8 (r₁ r₂ : Registry) (name id : String) (now : Nat)
    (h₁ : alookup r₁ name = none) (h₂ : alookup r₂ name = some []) :
    (Registry.serviceAddresses r₁ name now).2 = Except.error RegErr.notFound ∧
    (Registry.serviceAddresses r₂ name now).2 = Except.error RegErr.notFound ∧
    isNotRegistered (Registry.reportHealthyState r₁ id name now).2 = true ∧
    isNotRegistered (Registry.reportHealthyState r₂ id name now).2 = true ∧
    (Registry.reportHealthyState r₁ id name now).1 = r₁ ∧
    (Registry.reportHealthyState r₂ id name now).1 = r₂ := by
  refine ⟨?_, ?_, ?_, ?_, ?_, ?_⟩ <;>
    simp [Registry.serviceAddresses, Registry.reportHealthyState, innerOf,
      h₁, h₂, isNotRegistered, alookup]

/-- Claim C8, witness: the empty registry versus a registry mapping
"movies" to an empty inner map. -/
theorem claim_C8_witness :
    (Registry.serviceAddresses [] "movies" 0).2 =
      Except.error RegErr.notFound ∧
    (Registry.serviceAddresses [("movies", [])] "movies" 0).2 =
      Except.error RegErr.notFound ∧
    isNotRegistered (Registry.reportHealthyState [] "i1" "movies" 0).2 =
      true ∧
    isNotRegistered (Registry.reportHealthyState [("movies", [])] "i1"
      "movies" 0).2 = true ∧
    (Registry.reportHealthyState [] "i1" "movies" 0).1 = [] ∧
    (Registry.reportHealthyState [("movies", [])] "i1" "movies" 0).1 =
      [("movies", [])] :=
  claim_C8 [] [("movies", [])] "movies" "i1" 0 rfl rfl

/-- Claim C9: when Put stores under a (recordType, recordID) pair with no
existing entry, it replaces the whole per-recordType map by a fresh one
before appending, so every sibling recordID of that recordType reads as
erased afterwards; when the pair already has an entry, siblings are
untouched; in both cases the rating is appended under the pair itself. -/
theorem claim_C9 (d : RatingsMap) (t i j : String) (v : Rating)
    (h : j ≠ i) :
    getRatings (Repository.put d i t v) t j =
      (if (getRatings d t i).isSome = true then getRatings d t j
       else none) ∧
    getRatings (Repository.put d i t v) t i =
      some ((getRatings d t i).getD [] ++ [v]) := by
  have hji : ¬ (i = j) := fun hh => h hh.symm
  cases hlk : alookup ((alookup d t).getD []) i with
  | none =>
    constructor
    · simp [Repository.put, getRatings, hlk, alookup_ainsert, alookup, hji]
    · simp [Repository.put, getRatings, hlk, alookup_ainsert, alookup]
  | some cur =>
    constructor
    · simp [Repository.put, getRatings, hlk, alookup_ainsert, hji]
    · simp [Repository.put, getRatings, hlk, alookup_ainsert]

/-- Claim C9, witness: putting a first rating under record id "r3" of type
"movie" erases the sibling entry "r1", and stores the new rating. -/
theorem claim_C9_witness :
    getRatings (Repository.put [("movie", [("r1", [7]), ("r2", [9])])]
        "r3" "movie" 5) "movie" "r1" =
      (if (getRatings [("movie", [("r1", [7]), ("r2", [9])])] "movie"
          "r3").isSome = true
       then getRatings [("movie", [("r1", [7]), ("r2", [9])])] "movie" "r1"
       else none) ∧
    getRatings (Repository.put [("movie", [("r1", [7]), ("r2", [9])])]
        "r3" "movie" 5) "movie" "r3" =
      some ((getRatings [("movie", [("r1", [7]), ("r2", [9])])] "movie"
        "r3").getD [] ++ [5]) :=
  claim_C9 [("movie", [("r1", [7]), ("r2", [9])])] "movie" "r3" "r1" 5
    (by decide)

/-- Claim C10: Register validates nothing and succeeds on every input;
in particular a record registered under the empty service name and empty
instance id is stored like any other and is resolvable by resolving the
empty service name. -/
theorem claim_C10 (r : Registry) (id name hostPort : String) (now : Nat) :
    (Registry.register r id name hostPort now).2 = none ∧
    lookupRecord (Registry.register r "" "" hostPort now).1 "" "" =
      some ⟨hostPort, now⟩ ∧
    ∃ l, (Registry.serviceAddresses (Registry.register r "" "" hostPort now).1
        "" now).2 = Except.ok l ∧ hostPort ∈ l :=
  ⟨rfl, lookupRecord_register_self r "" "" hostPort now,
    serviceAddresses_register_mem r "" "" hostPort now⟩
